import Mathlib

/-!
Shallow embedding of the gearbox-OEM lookup service
(`podzamenu_lookup_service.py`) in Lean 4.

Conventions of the embedding:

* Python strings are Lean `String`s (sequences of Unicode characters);
  `len` is `String.length`, substring containment (`a in b`) is modelled
  over character lists, `str.lower()`/`str.upper()` are modelled for the
  ASCII and Cyrillic ranges that the service's data actually uses.
* `Optional[str]` is `Option String`.  Python truthiness of such a value
  (`if s:`) is `pyTruthy` — false exactly on `None` and `""`.
* The regex `\d` is modelled as an ASCII digit (the service applies it to
  part-number strings), `\s` as ASCII whitespace.
* Browser / JavaScript calls (Playwright page rendering, JS evaluation,
  SPA navigation) and the heavyweight HTML-table parsers are modelled as
  fields of an environment record: each field is documented with the
  source function whose result it abstracts.  The decision logic that
  consumes those results is embedded fully.
* `HTTPException` and other raised exceptions are modelled by the
  `LookupError` type; a function that can raise returns
  `Except LookupError LookupResponse`.  The diagnostic `evidence` dict is
  not modelled (it is write-only in the source); the routing facts the
  claims inspect (which resolver was invoked, in which order) are
  returned as an explicit invocation trace.
-/

namespace Podz

/-- Python truthiness of an `Optional[str]`: `None` and `""` are falsy. -/
def pyTruthy : Option String → Bool
  | none => false
  | some s => !(s == "")

/-- The Python idiom `s or None`: an empty string collapses to `None`. -/
def strOrNone (s : String) : Option String :=
  if s == "" then none else some s

/-- The Python idiom `a or b` on optional strings: `b` if `a` is falsy. -/
def pyOrOpt (a b : Option String) : Option String :=
  if pyTruthy a then a else b

/-- `str.lower()` restricted to ASCII letters and the Cyrillic block used
by the service's keyword tables (А-Я → а-я, Ё → ё). -/
def pyLowerChar (c : Char) : Char :=
  if 65 ≤ c.toNat && c.toNat ≤ 90 then Char.ofNat (c.toNat + 32)
  else if 0x410 ≤ c.toNat && c.toNat ≤ 0x42F then Char.ofNat (c.toNat + 32)
  else if c.toNat == 0x401 then Char.ofNat 0x451
  else c

/-- `str.upper()` restricted to ASCII letters and the Cyrillic block. -/
def pyUpperChar (c : Char) : Char :=
  if 97 ≤ c.toNat && c.toNat ≤ 122 then Char.ofNat (c.toNat - 32)
  else if 0x430 ≤ c.toNat && c.toNat ≤ 0x44F then Char.ofNat (c.toNat - 32)
  else if c.toNat == 0x451 then Char.ofNat 0x401
  else c

/-- `str.lower()`. -/
def pyLower (s : String) : String := String.mk (s.toList.map pyLowerChar)

/-- `str.upper()`. -/
def pyUpper (s : String) : String := String.mk (s.toList.map pyUpperChar)

/-- `\s` of the Python `re` module (ASCII part). -/
def pyIsSpace (c : Char) : Bool :=
  c == ' ' || c == '\t' || c == '\n' || c == '\r' || c.toNat == 11 || c.toNat == 12

/-- `str.strip()`: drop leading and trailing whitespace. -/
def pyStrip (s : String) : String :=
  String.mk (((s.toList.dropWhile pyIsSpace).reverse.dropWhile pyIsSpace).reverse)

/-- `needle` occurs as a contiguous sublist of `hay`. -/
def listContainsSub (needle : List Char) : List Char → Bool
  | [] => needle.isPrefixOf []
  | c :: rest => needle.isPrefixOf (c :: rest) || listContainsSub needle rest

/-- The Python substring test `needle in hay`. -/
def strContains (hay needle : String) : Bool :=
  listContainsSub needle.toList hay.toList

/-- Membership of a single character in a string (`c in code`). -/
def strHasChar (s : String) (c : Char) : Bool := s.toList.contains c

/-- Three consecutive ASCII digits occur in the list
(the regex search `\d{3,}` succeeds). -/
def hasThreeDigitRun : List Char → Bool
  | a :: b :: c :: rest =>
      (a.isDigit && b.isDigit && c.isDigit) || hasThreeDigitRun (b :: c :: rest)
  | _ => false

/-- `is_valid_gearbox_oem` (podzamenu_lookup_service.py:318): distinguish a
real OEM part number from factory codes and garbage metadata dumps. -/
def is_valid_gearbox_oem (code : String) : Bool :=
  if code == "" || code.length < 6 then false
  else if strHasChar code '(' || strHasChar code ')' then false
  else if !hasThreeDigitRun code.toList then false
  else if strHasChar code ';' || strHasChar code ':' || strHasChar code '=' then false
  else if code.length > 25 then false
  else true

/-- ASCII letter (either case) — `[A-Z]` under `re.IGNORECASE`. -/
def isAsciiLetter (c : Char) : Bool :=
  (65 ≤ c.toNat && c.toNat ≤ 90) || (97 ≤ c.toNat && c.toNat ≤ 122)

/-- ASCII lowercase letter — `[a-z]`. -/
def isAsciiLower (c : Char) : Bool := 97 ≤ c.toNat && c.toNat ≤ 122

/-- ASCII letter or digit — `[A-Z0-9]` under `re.IGNORECASE`. -/
def isAsciiAlnum (c : Char) : Bool := isAsciiLetter c || c.isDigit

/-- `is_factory_code` (podzamenu_lookup_service.py:335): detect
factory/aggregate codes like `QCE(6A)`, `DQ250`, `F4A42`.  The two anchored
regexes `^[A-Z]{2,5}\(\d+[A-Z]?\)$` and `^[A-Z]{2,4}\d{1,3}$` (both
`re.IGNORECASE`) are modelled by span decomposition, which is equivalent
because adjacent character classes are disjoint. -/
def is_factory_code (code : String) : Bool :=
  if code == "" then false
  else
    let l := code.toList
    let letters1 := l.takeWhile isAsciiLetter
    let rest1 := l.dropWhile isAsciiLetter
    let pat1 :=
      2 ≤ letters1.length && letters1.length ≤ 5 &&
      (match rest1 with
       | '(' :: r =>
          let digits := r.takeWhile Char.isDigit
          let r2 := r.dropWhile Char.isDigit
          1 ≤ digits.length &&
            (r2 == [')'] ||
             (match r2 with
              | [x, y] => isAsciiLetter x && y == ')'
              | _ => false))
       | _ => false)
    if pat1 then true
    else
      let digits2 := rest1.takeWhile Char.isDigit
      let rest2 := rest1.dropWhile Char.isDigit
      let pat2 :=
        2 ≤ letters1.length && letters1.length ≤ 4 &&
        1 ≤ digits2.length && digits2.length ≤ 3 && rest2.isEmpty
      pat2 && code.length ≤ 6

/-- `OEM_INCLUDE_PATTERNS` (podzamenu_lookup_service.py:229): include a
candidate if its name contains any of these. -/
def OEM_INCLUDE_PATTERNS : List String :=
  ["кпп", "акпп", "коробк", "коробка передач", "коробка передач в сборе",
   "мкп", "акп", "вариатор", "вариатор в сборе", "cvt",
   "трансмиссия", "transmission", "gearbox", "gear box",
   "at transmission", "mt transmission",
   "автоматическая коробка", "механическая коробка",
   "transaxle"]

/-- `OEM_EXCLUDE_PATTERNS` (podzamenu_lookup_service.py:239): exclude a
candidate if its name contains any of these. -/
def OEM_EXCLUDE_PATTERNS : List String :=
  ["масло", "шайб", "фиксатор", "шумоизоляц", "болт", "гайк", "уплотн",
   "прокладк", "сальник", "фильтр", "датчик", "крепеж"]

/-- `OEM_PRIORITY_TERMS` (podzamenu_lookup_service.py:245): candidates with
these in the name rank higher. -/
def OEM_PRIORITY_TERMS : List String :=
  ["в сборе", "трансмиссия", "коробка передач",
   "transaxle package", "transmission assy", "transaxle assy"]

/-- `_has_priority_term` (podzamenu_lookup_service.py:1446). -/
def has_priority_term (name : String) : Bool :=
  let n := pyLower name
  OEM_PRIORITY_TERMS.any (fun t => strContains n t)

/-- The comparison underlying `result.sort(key=lambda x: (0 if
_has_priority_term(x[1]) else 1, x[1]))`: ascending lexicographic order on
the pair (priority flag, name), names compared as Python compares strings
(by code points). -/
def oemSortLE (a b : String × String) : Bool :=
  let ka : Nat := if has_priority_term a.2 then 0 else 1
  let kb : Nat := if has_priority_term b.2 then 0 else 1
  if ka == kb then decide (a.2 ≤ b.2) else decide (ka < kb)

/-- Insert `a` into `l` before the first element `b` with `le a b`.  With a
total preorder `le` this is the insertion step of a stable sort. -/
def insertLE (le : α → α → Bool) (a : α) : List α → List α
  | [] => [a]
  | b :: l => if le a b then a :: b :: l else b :: insertLE le a l

/-- Stable insertion sort.  A stable sort under a fixed total preorder is
unique, so this models Python's stable `list.sort` exactly. -/
def sortLE (le : α → α → Bool) : List α → List α
  | [] => []
  | a :: l => insertLE le a (sortLE le l)

/-- `_filter_oem_candidates` (podzamenu_lookup_service.py:1452): keep
candidates whose name avoids every exclude pattern and contains some
include pattern; optionally sort by the priority key (Python's stable
`list.sort` is modelled by the stable `sortLE`). -/
def filter_oem_candidates (candidates : List (String × String))
    (sort_by_priority : Bool := false) : List (String × String) :=
  let result := candidates.filter (fun p =>
    let nameLower := pyLower p.2
    !(OEM_EXCLUDE_PATTERNS.any (fun ex => strContains nameLower ex)) &&
    (OEM_INCLUDE_PATTERNS.any (fun inc => strContains nameLower inc)))
  if sort_by_priority then sortLE oemSortLE result else result

/-- `_GEO_NAMES` (podzamenu_lookup_service.py:373). -/
def GEO_NAMES : List String :=
  ["america", "north america", "south america",
   "europe", "europa",
   "russia", "россия",
   "asia", "азия",
   "japan", "япония",
   "china", "китай",
   "korea", "корея",
   "general", "domestic", "export"]

/-- `_is_css_hash` (podzamenu_lookup_service.py:385): the anchored regex
`^[a-z]{1,6}\d{2,3}[a-z]?$` applied to `token.strip().lower()`. -/
def is_css_hash (token : String) : Bool :=
  let l := (pyLower (pyStrip token)).toList
  let letters := l.takeWhile isAsciiLower
  let r1 := l.dropWhile isAsciiLower
  let digits := r1.takeWhile Char.isDigit
  let r2 := r1.dropWhile Char.isDigit
  1 ≤ letters.length && letters.length ≤ 6 &&
  2 ≤ digits.length && digits.length ≤ 3 &&
  (r2.isEmpty || (match r2 with | [x] => isAsciiLower x | _ => false))

/-- `_is_body_code` (podzamenu_lookup_service.py:390): the anchored regex
`^[A-Z]{2,4}\d{2}[A-Z]{1,2}$` (`re.I`) plus at most two digits overall. -/
def is_body_code (token : String) : Bool :=
  let t := pyStrip token
  let l := t.toList
  let letters := l.takeWhile isAsciiLetter
  let r1 := l.dropWhile isAsciiLetter
  let digits := r1.takeWhile Char.isDigit
  let r2 := r1.dropWhile Char.isDigit
  let letters2 := r2.takeWhile isAsciiLetter
  let r3 := r2.dropWhile isAsciiLetter
  let fullMatch :=
    2 ≤ letters.length && letters.length ≤ 4 &&
    digits.length == 2 &&
    1 ≤ letters2.length && letters2.length ≤ 2 && r3.isEmpty
  fullMatch && (l.countP (fun c => c.isDigit)) ≤ 2

/-- `_is_geo_name` (podzamenu_lookup_service.py:398). -/
def is_geo_name (token : String) : Bool :=
  GEO_NAMES.contains (pyLower (pyStrip token))

/-- `_is_date_string` (podzamenu_lookup_service.py:403): the anchored regex
`^\d{2}\.\d{4}$`. -/
def is_date_string (token : String) : Bool :=
  match (pyStrip token).toList with
  | [a, b, d, c1, c2, c3, c4] =>
      a.isDigit && b.isDigit && d == '.' &&
      c1.isDigit && c2.isDigit && c3.isDigit && c4.isDigit
  | _ => false

/-- `_is_valid_model_candidate` (podzamenu_lookup_service.py:408). -/
def is_valid_model_candidate (token : String) : Bool :=
  let t := pyStrip token
  if t == "" || t.length < 2 then false
  else if is_css_hash t then false
  else if is_body_code t then false
  else if is_geo_name t then false
  else if is_date_string t then false
  else true

/-- `VW_GROUP_WMI` (podzamenu_lookup_service.py:156). -/
def VW_GROUP_WMI : List String :=
  ["WVW", "WV1", "WV2", "WV3", "WV6",
   "WAU", "WA1",
   "TMB",
   "XW8",
   "VSS", "VS6", "VS7",
   "WP0", "WP1",
   "9BW", "8AW", "1VW"]

/-- `is_vw_group` (podzamenu_lookup_service.py:167): VIN belongs to the VW
group when its first three characters, uppercased, are a VW-group WMI. -/
def is_vw_group (vin : String) : Bool :=
  !(vin == "") && 3 ≤ vin.length && VW_GROUP_WMI.contains (pyUpper (String.mk (vin.toList.take 3)))

/-- `FORD_WMI` (podzamenu_lookup_service.py:173). -/
def FORD_WMI : List String :=
  ["1FT", "1FA", "1FB", "1FC", "1FD",
   "1FM",
   "2FT", "2FA", "2FB",
   "3FA", "3FB", "3FE",
   "WF0",
   "SAJ", "SAL",
   "Z6F", "Z6R",
   "X9F",
   "MAJ"]

/-- `is_ford` (podzamenu_lookup_service.py:190). -/
def is_ford (vin : String) : Bool :=
  !(vin == "") && 3 ≤ vin.length && FORD_WMI.contains (pyUpper (String.mk (vin.toList.take 3)))

/-- `re.sub(r"\s+", " ", s)`: collapse each maximal whitespace run to one
space. -/
def collapseWsRuns : List Char → List Char
  | [] => []
  | [c] => [if pyIsSpace c then ' ' else c]
  | a :: b :: rest =>
    if pyIsSpace a && pyIsSpace b then collapseWsRuns (b :: rest)
    else (if pyIsSpace a then ' ' else a) :: collapseWsRuns (b :: rest)

/-- `title.split(" / ", 1)`: split at the first occurrence of the separator
`" / "`, if any. -/
def splitFirstSlashSep : List Char → Option (List Char × List Char)
  | [] => none
  | c :: rest =>
    if [' ', '/', ' '].isPrefixOf (c :: rest) then some ([], (c :: rest).drop 3)
    else
      match splitFirstSlashSep rest with
      | some (a, b) => some (c :: a, b)
      | none => none

/-- `_parse_vehicle_title` (podzamenu_lookup_service.py:429): parse a
vehicle title like `KIA Spectra` or `OPEL / INSIGNIA-A` into
(make, model). -/
def parse_vehicle_title (title : String) : Option String × Option String :=
  if title == "" then (none, none)
  else
    let t := pyStrip (String.mk (collapseWsRuns title.toList))
    match splitFirstSlashSep t.toList with
    | some (a, b) =>
        (strOrNone (pyStrip (String.mk a)), strOrNone (pyStrip (String.mk b)))
    | none =>
      let l := t.toList
      let w1 := l.takeWhile (fun c => !pyIsSpace c)
      let rest := l.dropWhile (fun c => !pyIsSpace c)
      if w1.isEmpty then (none, none)
      else
        match rest with
        | [] => (some (String.mk w1), none)
        | _ :: r2 => (some (String.mk w1), some (String.mk r2))

/-- One pattern of the not-found tables: literal words joined by `\s+`.
`wordSeqAt ws l` holds when the sequence matches at the head of `l`. -/
def wordSeqAt : List (List Char) → List Char → Bool
  | [], _ => true
  | [w], l => w.isPrefixOf l
  | w :: w2 :: ws, l =>
    w.isPrefixOf l &&
      (let r := l.drop w.length
       let sp := r.takeWhile pyIsSpace
       !sp.isEmpty && wordSeqAt (w2 :: ws) (r.dropWhile pyIsSpace))

/-- `re.search` of a word-sequence pattern: the sequence matches at some
position of the text. -/
def searchWordSeq (ws : List (List Char)) : List Char → Bool
  | [] => wordSeqAt ws []
  | c :: rest => wordSeqAt ws (c :: rest) || searchWordSeq ws (rest)

/-- `NOT_FOUND_PATTERNS` (podzamenu_lookup_service.py:283), each regex
`w1\s+w2\s+...` written as its word list. -/
def NOT_FOUND_PATTERNS : List (List String) :=
  [["не", "найдено"],
   ["ничего", "не", "найдено"],
   ["не", "найден"],
   ["данные", "не", "найдены"],
   ["автомобиль", "не", "найден"],
   ["vehicle", "not", "found"],
   ["no", "results"]]

/-- `PROF_RF_NOT_FOUND_PATTERNS` (podzamenu_lookup_service.py:294). -/
def PROF_RF_NOT_FOUND_PATTERNS : List (List String) :=
  [["отсутствует", "в", "базе", "данных"],
   ["vin", "код", "отсутствует"],
   ["данный", "vin", "код", "отсутствует"],
   ["не", "найден"]]

/-- `_is_not_found` (podzamenu_lookup_service.py:1302): some pattern occurs
in the lowercased page text. -/
def is_not_found (html : String) (patterns : List (List String)) : Bool :=
  let text := (pyLower html).toList
  patterns.any (fun p => searchWordSeq (p.map String.toList) text)

/-- Match a literal case-insensitively at the head of the input; return the
consumed original characters and the rest. -/
def matchLitCi : List Char → List Char → Option (List Char × List Char)
  | [], rest => some ([], rest)
  | _ :: _, [] => none
  | p :: ps, c :: cs =>
    if pyLowerChar c == pyLowerChar p then
      match matchLitCi ps cs with
      | some (cons, rest) => some (c :: cons, rest)
      | none => none
    else none

/-- Match `\s+`: at least one whitespace character, consumed greedily. -/
def matchWs1 (l : List Char) : Option (List Char × List Char) :=
  let sp := l.takeWhile pyIsSpace
  if sp.isEmpty then none else some (sp, l.dropWhile pyIsSpace)

/-- Match group 1 of `PROF_RF_HEADER_PATTERN`
(`Коробка\s+передач|Трансмиссия`, `re.IGNORECASE`) at the head of the
input. -/
def matchProfHeaderGroup1 (l : List Char) : Option (List Char × List Char) :=
  match matchLitCi "коробка".toList l with
  | some (c1, r1) =>
    (match matchWs1 r1 with
     | some (sp, r2) =>
       (match matchLitCi "передач".toList r2 with
        | some (c2, r3) => some (c1 ++ sp ++ c2, r3)
        | none => matchLitCi "трансмиссия".toList l)
     | none => matchLitCi "трансмиссия".toList l)
  | none => matchLitCi "трансмиссия".toList l

/-- Match the whole `PROF_RF_HEADER_PATTERN`
(`(Коробка\s+передач|Трансмиссия)\s+([A-Z0-9]{6,20})`) at the head of the
input, returning (group 1, group 2).  Group 2 is greedy and bounded by 20,
with nothing following it in the pattern, so it is the first
`min(run, 20)` characters of the maximal alphanumeric run, which must have
length at least 6. -/
def matchProfHeaderAt (l : List Char) : Option (List Char × List Char) :=
  match matchProfHeaderGroup1 l with
  | none => none
  | some (g1, r1) =>
    match matchWs1 r1 with
    | none => none
    | some (_, r2) =>
      let run := r2.takeWhile isAsciiAlnum
      if 6 ≤ run.length then some (g1, run.take 20) else none

/-- Scan left to right for the first (leftmost) match position of
`PROF_RF_HEADER_PATTERN`. -/
def profHeaderScan : List Char → Option (List Char × List Char)
  | [] => none
  | c :: rest =>
    match matchProfHeaderAt (c :: rest) with
    | some r => some r
    | none => profHeaderScan rest

/-- `_extract_prof_rf_header_oem` (podzamenu_lookup_service.py:1803): the
first (leftmost) match of `PROF_RF_HEADER_PATTERN` in the page, returned
as `(model_text, oem)` where `model_text = f"{group1.strip()} {oem}"` and
`oem = group2.strip()`. -/
def extract_prof_rf_header_oem (html : String) : Option (String × String) :=
  match profHeaderScan html.toList with
  | some (g1, g2) =>
    let oem := pyStrip (String.mk g2)
    some (pyStrip (String.mk g1) ++ " " ++ oem, oem)
  | none => none

/-- `GearboxOemCandidate` (podzamenu_lookup_service.py:63). -/
structure GearboxOemCandidate where
  oem : String
  name : String
deriving DecidableEq, Repr

/-- `GearboxInfo` (podzamenu_lookup_service.py:68).  `oemStatus` ranges over
"FOUND" | "NOT_FOUND" | "NOT_AVAILABLE" | "MODEL_ONLY". -/
structure GearboxInfo where
  model : Option String := none
  factoryCode : Option String := none
  oem : Option String := none
  oemCandidates : List GearboxOemCandidate := []
  oemStatus : String
  needsManualKppCode : Bool := false
deriving DecidableEq, Repr

/-- `LookupResponse` (podzamenu_lookup_service.py:77).  `vehicleMeta` is the
meta dict as an association list; the write-only diagnostic `evidence`
dict is not modelled. -/
structure LookupResponse where
  vehicleMeta : List (String × String)
  gearbox : GearboxInfo
deriving DecidableEq, Repr

/-- A raised exception.  `http status errorKey` is a FastAPI
`HTTPException` whose detail carries `errorKey` under the "error" key
(`none` when the detail is not a dict or has no "error" entry);
`timeoutExc` is any non-HTTP exception that the endpoint's
`is_timeout` test classifies as a timeout ("timeout" in its string or
"Timeout" in its type name); `otherExc` is any other non-HTTP
exception. -/
inductive LookupError where
  | http (status : Nat) (errorKey : Option String)
  | timeoutExc (msg : String)
  | otherExc (msg : String)
deriving DecidableEq, Repr

end Podz

deriving instance DecidableEq for Except

namespace Podz

/-- `meta.get(k)`. -/
def dictGet (d : List (String × String)) (k : String) : Option String :=
  match d.find? (fun p => p.1 == k) with
  | some p => some p.2
  | none => none

/-- `meta[k] = v`: overwrite in place, else append. -/
def dictSet (d : List (String × String)) (k v : String) : List (String × String) :=
  if (d.find? (fun p => p.1 == k)).isSome then
    d.map (fun p => if p.1 == k then (k, v) else p)
  else d ++ [(k, v)]

/-- Environment of one `_do_lookup_podzamenu` run: the results of every
browser / JavaScript / HTML-parsing call the resolver makes, in source
order.  Each field is named for the source call it abstracts; the resolver
body that consumes them is embedded fully. -/
structure PodzEnv where
  /-- `page.content()` of the search-result page. -/
  html : String
  /-- `_extract_vehicle_info_js(page)["meta"]`. -/
  metaJs : List (String × String)
  /-- `vehicle_info.get("kppHint")`. -/
  kppHint : Option String
  /-- `vehicle_info.get("gearboxModel")`. -/
  gearboxModelFromTable : Option String
  /-- `vehicle_info.get("gearboxFactoryCode")`. -/
  gearboxFactoryFromTable : Option String
  /-- `vehicle_info.get("aggregates")`. -/
  aggregatesHint : Option String
  /-- `vehicle_info.get("vehicleTitle")`. -/
  vehicleTitle : Option String
  /-- `_extract_meta_from_page(html)`. -/
  metaFromPage : List (String × String)
  /-- `_extract_model_from_kpp_description(kpp_hint)`. -/
  kppDescResult : Option String × Option String
  /-- `_extract_model_from_aggregates(aggregates_hint)`. -/
  aggModel : Option String
  /-- `_extract_model_from_page(html, selectors_used)`. -/
  modelFromPage : Option String
  /-- `_extract_factory_code(html, selectors_used)`. -/
  factoryCodeFromHtml : Option String
  /-- `extract_ford_transmission_model`, as a function of its argument. -/
  fordModelOf : String → Option String
  /-- `_navigate_to_gearbox_detail(page, selectors_used)`. -/
  navReached : Bool
  /-- `_extract_factory_code(gearbox_html, selectors_used)`. -/
  detailFactoryCode : Option String
  /-- `_extract_model_from_page(gearbox_html, selectors_used)`. -/
  detailModel : Option String
  /-- Strategy 1: `_parse_oem_table(gearbox_html)`. -/
  strategy1Rows : List (String × String)
  /-- Strategy 2: `_extract_oem_from_schema_page_js(page)` candidates. -/
  strategy2Rows : List (String × String)
  /-- Strategy 2: `_extract_oem_from_schema_page_js(page)` model hint. -/
  strategy2ModelHint : Option String
  /-- Strategy 3: `_extract_oem_from_table_js(page)`. -/
  strategy3Rows : List (String × String)

/-- Lines 1507-1525: assemble `meta` from the JS extraction, the
vehicle-title override, and the page fallback. -/
def podzMeta (env : PodzEnv) : List (String × String) :=
  let meta := env.metaJs
  let meta :=
    if pyTruthy env.vehicleTitle then
      let tm := parse_vehicle_title (env.vehicleTitle.getD "")
      let meta := if pyTruthy tm.1 then dictSet meta "make" (tm.1.getD "") else meta
      let meta :=
        if pyTruthy tm.2 && !pyTruthy (dictGet meta "model") then
          dictSet meta "model" (tm.2.getD "")
        else meta
      meta
    else meta
  if meta.isEmpty then env.metaFromPage else meta

/-- Lines 1527-1553 (the gearbox-model priority cascade) and the
`kpp_desc_factory` by-product it computes on the way.  Returns
`(gearbox_model, kpp_desc_factory)`. -/
def podzModelCascade (env : PodzEnv) : Option String × Option String :=
  let gm : Option String :=
    if pyTruthy env.gearboxModelFromTable &&
        is_valid_model_candidate (env.gearboxModelFromTable.getD "") then
      env.gearboxModelFromTable
    else none
  let gm :=
    if !pyTruthy gm && pyTruthy env.kppHint &&
        is_valid_model_candidate (env.kppHint.getD "") then
      env.kppHint
    else gm
  let kd : Option String × Option String :=
    if !pyTruthy gm && pyTruthy env.kppHint then env.kppDescResult else (none, none)
  let gm := if !pyTruthy gm && pyTruthy kd.1 then kd.1 else gm
  let gm :=
    if !pyTruthy gm && pyTruthy env.aggregatesHint && pyTruthy env.aggModel then
      env.aggModel
    else gm
  let gm := if !pyTruthy gm then env.modelFromPage else gm
  (gm, kd.2)

/-- Lines 1555-1567: the factory-code cascade on the search page. -/
def podzFactoryCascade (env : PodzEnv) (gm kdf : Option String) : Option String :=
  let fc := env.factoryCodeFromHtml
  let fc :=
    if !pyTruthy fc && pyTruthy env.gearboxFactoryFromTable then
      env.gearboxFactoryFromTable
    else fc
  let fc := if !pyTruthy fc && pyTruthy kdf then kdf else fc
  if pyTruthy gm && is_factory_code (gm.getD "") && !pyTruthy fc then gm else fc

/-- Lines 1667-1673: partition raw candidates into the validity-filtered
list, letting a factory-code-shaped invalid candidate fill the factory
code when it is still unset.  Returns (valid_candidates, factoryCode). -/
def validOemLoop : List (String × String) → Option String → List (String × String) × Option String
  | [], fc => ([], fc)
  | (oemCode, name) :: rest, fc =>
    if is_valid_gearbox_oem oemCode then
      let r := validOemLoop rest fc
      ((oemCode, name) :: r.1, r.2)
    else if is_factory_code oemCode && !pyTruthy fc then
      validOemLoop rest (some oemCode)
    else
      validOemLoop rest fc

/-- Lines 1621-1656 of the navigation branch: refine the factory code and
model from the detail page, including the strategy-2 model hint (whose
guard repeats the strategy-1 emptiness test). -/
def podzDetailRefine (env : PodzEnv) (g0 : GearboxInfo) : GearboxInfo :=
  let fc := if pyTruthy env.detailFactoryCode then env.detailFactoryCode else g0.factoryCode
  let m1 := if !pyTruthy g0.model && pyTruthy env.detailModel then env.detailModel else g0.model
  let m2 :=
    if env.strategy1Rows.isEmpty && pyTruthy env.strategy2ModelHint && !pyTruthy m1 then
      env.strategy2ModelHint
    else m1
  { g0 with factoryCode := fc, model := m2 }

/-- Lines 1640-1665: the `candidates_raw` cascade — strategy 1 (HTML table
parse), else strategy 2 (schema-page JS), else strategy 3 (table JS). -/
def podzStrategyRows (env : PodzEnv) : List (String × String) :=
  let cands1 := env.strategy1Rows
  let cands2 := if cands1.isEmpty && !env.strategy2Rows.isEmpty then env.strategy2Rows else cands1
  if cands2.isEmpty && !env.strategy3Rows.isEmpty then env.strategy3Rows else cands2

/-- The raw candidate rows the resolver obtains: the strategy cascade when
the detail page was reached, nothing otherwise. -/
def podzCandidatesRaw (env : PodzEnv) : List (String × String) :=
  if env.navReached then podzStrategyRows env else []

/-- Lines 1679-1693: select the resolved OEM and status from the
validity-filtered candidates `validCands` (`cands3` is the raw list, used
only for the `NOT_FOUND` fallback when every row failed validity). -/
def podzSelectOem (validCands cands3 : List (String × String)) (g : GearboxInfo) : GearboxInfo :=
  if !validCands.isEmpty then
    let filtered := filter_oem_candidates validCands true
    if !filtered.isEmpty then
      { g with oem := strOrNone (filtered.headD ("", "")).1, oemStatus := "FOUND" }
    else if !validCands.isEmpty then
      let o := strOrNone (validCands.headD ("", "")).1
      { g with oem := o, oemStatus := if pyTruthy o then "FOUND" else "NOT_FOUND" }
    else
      { g with oemStatus := "NOT_FOUND" }
  else if !cands3.isEmpty then
    { g with oemStatus := "NOT_FOUND" }
  else g

/-- Lines 1606-1695: the navigation branch of `_do_lookup_podzamenu` — on
the reached detail page refine factory code and model, run the three OEM
extraction strategies, validity-filter the candidates, and select the OEM.
When navigation fails the gearbox is returned unchanged. -/
def podzNavGearbox (env : PodzEnv) (g0 : GearboxInfo) : GearboxInfo :=
  if env.navReached then
    let g := podzDetailRefine env g0
    let cands3 := podzStrategyRows env
    let vl := validOemLoop cands3 g.factoryCode
    let g := { g with factoryCode := vl.2,
                      oemCandidates := (vl.1.take 10).map
                        (fun p => { oem := p.1, name := p.2 }) }
    podzSelectOem vl.1 cands3 g
  else g0

/-- The control point `_do_lookup_podzamenu` reaches after the not-found
check: an early return (VW-group or Ford `MODEL_ONLY` exit) or the
meta/gearbox pair that proceeds to the final FRAME / PARSE_FAILED
check. -/
inductive PodzStage where
  | notFoundPage : PodzStage
  | earlyExit (resp : LookupResponse) : PodzStage
  | proceed (meta : List (String × String)) (g : GearboxInfo) : PodzStage
deriving DecidableEq, Repr

/-- Lines 1588-1596: the Ford transmission-model probe — the vehicleMeta
"transmission" field first, the extracted gearbox model as fallback. -/
def podzFordModel (env : PodzEnv) (meta : List (String × String)) (gm : Option String) :
    Option String :=
  let transField := (pyOrOpt (dictGet meta "transmission") (dictGet meta "Transmission")).getD ""
  let f0 : Option String := if !(transField == "") then env.fordModelOf transField else none
  if !pyTruthy f0 && pyTruthy gm then env.fordModelOf (gm.getD "") else f0

/-- Lines 1500-1695 of `_do_lookup_podzamenu`: everything before the final
FRAME / PARSE_FAILED check. -/
def podzStage (idType value : String) (env : PodzEnv) : PodzStage :=
  if is_not_found env.html NOT_FOUND_PATTERNS then .notFoundPage
  else
    let meta := podzMeta env
    let mc := podzModelCascade env
    let gm := mc.1
    let fc := podzFactoryCascade env gm mc.2
    let g0 : GearboxInfo :=
      { model := gm, factoryCode := fc, oem := none, oemCandidates := [],
        oemStatus := "NOT_AVAILABLE", needsManualKppCode := false }
    if pyTruthy gm && idType == "VIN" && is_vw_group value then
      .earlyExit { vehicleMeta := meta,
                   gearbox := { g0 with oemStatus := "MODEL_ONLY",
                                        factoryCode := pyOrOpt g0.factoryCode gm } }
    else if idType == "VIN" && is_ford value then
      let fordM := podzFordModel env meta gm
      if pyTruthy fordM then
        .earlyExit { vehicleMeta := meta,
                     gearbox := { g0 with model := fordM, factoryCode := fordM,
                                          oemStatus := "MODEL_ONLY" } }
      else
        .proceed meta (podzNavGearbox env g0)
    else
      .proceed meta (podzNavGearbox env g0)

/-- Lines 1697-1722: the FRAME manual-input flag and the
neither-model-nor-OEM `PARSE_FAILED` check. -/
def podzFinalize (idType : String) (meta : List (String × String)) (g : GearboxInfo) :
    Except LookupError LookupResponse :=
  let g := if idType == "FRAME" && (g.oemStatus == "NOT_AVAILABLE" || g.oemStatus == "NOT_FOUND")
           then { g with needsManualKppCode := true } else g
  if !pyTruthy g.model && !pyTruthy g.oem then
    if g.needsManualKppCode then .ok { vehicleMeta := meta, gearbox := g }
    else .error (.http 500 (some "PARSE_FAILED"))
  else .ok { vehicleMeta := meta, gearbox := g }

/-- `_do_lookup_podzamenu` (podzamenu_lookup_service.py:1469). -/
def do_lookup_podzamenu (idType value : String) (env : PodzEnv) :
    Except LookupError LookupResponse :=
  match podzStage idType value env with
  | .notFoundPage => .error (.http 404 (some "NOT_FOUND"))
  | .earlyExit resp => .ok resp
  | .proceed meta g => podzFinalize idType meta g

/-- Environment of one `_do_lookup_prof_rf` run.  The page content is
carried verbatim (`html`); the header extractor and the not-found check
are embedded fully over it, while the HTML-table parsers it shares with
the rest of the service are abstracted as fields, each documented with
the source call whose result on `html` it stands for. -/
structure ProfEnv where
  /-- `page.content()` of the prof_rf page. -/
  html : String
  /-- `_extract_meta_from_page(html)`. -/
  metaFromPage : List (String × String)
  /-- `_parse_prof_rf_blocks(html)[0]`: rows `(oem, name, block_type)` of
  the Оригинал / Аналоги / Копии block tables. -/
  blockedRows : List (String × String × String)
  /-- `_parse_oem_table(html)`, the all-table row scan (this is both the
  second component of `_parse_prof_rf_blocks` and the table parse used by
  the header path). -/
  oemTableRows : List (String × String)
  /-- `_extract_model_from_page(html, selectors_used)`. -/
  modelFromPage : Option String

/-- `_extract_from_prof_rf` (podzamenu_lookup_service.py:1889): returns
`(meta, model, oem, candidates_raw)`. -/
def extract_from_prof_rf (env : ProfEnv) :
    List (String × String) × Option String × Option String × List (String × String) :=
  let meta := env.metaFromPage
  match extract_prof_rf_header_oem env.html with
  | some mo =>
    let modelText := mo.1
    let oem := mo.2
    let candidatesRaw :=
      if !env.oemTableRows.isEmpty then env.oemTableRows
      else if !(oem == "") then [(oem, modelText)] else []
    (meta, some modelText, some oem, candidatesRaw)
  | none =>
    let candidatesRaw := env.oemTableRows
    let originalOems := (env.blockedRows.filter (fun r =>
        pyLower r.2.2 == "оригинал" &&
        (let nl := pyLower r.2.1
         !(OEM_EXCLUDE_PATTERNS.any (fun ex => strContains nl ex)) &&
         (OEM_INCLUDE_PATTERNS.any (fun inc => strContains nl inc))))).map
      (fun r => (r.1, r.2.1))
    let step1 : Option String × Option String :=
      if !originalOems.isEmpty then
        let filtered := filter_oem_candidates originalOems true
        if !filtered.isEmpty then
          (strOrNone (filtered.headD ("", "")).1, some (filtered.headD ("", "")).2)
        else
          (strOrNone (originalOems.headD ("", "")).1, some (originalOems.headD ("", "")).2)
      else (none, none)
    let oem1 := step1.1
    let model1 := step1.2
    let step2 : Option String × Option String :=
      if !pyTruthy oem1 && !candidatesRaw.isEmpty then
        let filtered := filter_oem_candidates candidatesRaw true
        if !filtered.isEmpty then
          (strOrNone (filtered.headD ("", "")).1, pyOrOpt model1 (some (filtered.headD ("", "")).2))
        else (oem1, model1)
      else (oem1, model1)
    let model3 := if !pyTruthy step2.2 then env.modelFromPage else step2.2
    (meta, model3, step2.1, candidatesRaw)

/-- `_do_lookup_prof_rf` (podzamenu_lookup_service.py:1944).  The VIN
argument only builds the provider URL in the source, so the body does not
consume it. -/
def do_lookup_prof_rf (_vin : String) (env : ProfEnv) :
    Except LookupError LookupResponse :=
  if is_not_found env.html PROF_RF_NOT_FOUND_PATTERNS then
    .error (.http 404 (some "NOT_FOUND"))
  else
    let ex := extract_from_prof_rf env
    let model := ex.2.1
    let oem := ex.2.2.1
    let candidatesRaw := ex.2.2.2
    if !pyTruthy model && !pyTruthy oem then
      .error (.http 500 (some "PARSE_FAILED"))
    else
      .ok { vehicleMeta := ex.1,
            gearbox := { model := model, factoryCode := none, oem := oem,
                         oemCandidates := (candidatesRaw.take 10).map
                           (fun p => { oem := p.1, name := p.2 }),
                         oemStatus := if pyTruthy oem then "FOUND" else "NOT_AVAILABLE",
                         needsManualKppCode := false } }

/-- Environment of one `_do_lookup_routed` run: the configured routing
strategy (`SOURCE_STRATEGY`) and the outcome each per-source resolver
would produce if awaited during this attempt. -/
structure RouterEnv where
  /-- `SOURCE_STRATEGY`: "auto" | "podzamenu" | "prof_rf". -/
  strategy : String
  /-- Outcome of `await _do_lookup_podzamenu(id_type, value, ev)`. -/
  podzOutcome : Except LookupError LookupResponse
  /-- Outcome of `await _do_lookup_prof_rf(value, ev2)`. -/
  profOutcome : Except LookupError LookupResponse

/-- `_do_lookup_routed` (podzamenu_lookup_service.py:2009).  The second
component is the invocation trace: the resolvers awaited, in order — the
pure-functional rendering of the code's calls to the two `_do_lookup_*`
coroutines.  A raised exception is the `Except.error` case. -/
def do_lookup_routed (idType : String) (env : RouterEnv) :
    Except LookupError LookupResponse × List String :=
  if idType == "FRAME" then
    if env.strategy == "prof_rf" then
      (.error (.http 400 (some "UNSUPPORTED_ID_TYPE")), [])
    else
      (env.podzOutcome, ["podzamenu"])
  else if env.strategy == "podzamenu" then
    (env.podzOutcome, ["podzamenu"])
  else if env.strategy == "prof_rf" then
    (env.profOutcome, ["prof_rf"])
  else
    match env.podzOutcome with
    | .ok result =>
      if result.gearbox.oemStatus == "FOUND" then
        (.ok result, ["podzamenu"])
      else
        (match env.profOutcome with
         | .ok result2 =>
           if result2.gearbox.oemStatus == "FOUND" then
             (.ok result2, ["podzamenu", "prof_rf"])
           else
             (.ok result, ["podzamenu", "prof_rf"])
         | .error (.http s k) =>
           let _ := (s, k)
           (.ok result, ["podzamenu", "prof_rf"])
         | .error e2 => (.error e2, ["podzamenu", "prof_rf"]))
    | .error e =>
      match e with
      | .http status errKey =>
        let isNF := status == 404 && errKey == some "NOT_FOUND"
        let isPF := status == 500 && errKey == some "PARSE_FAILED"
        if isNF || isPF then
          match env.profOutcome with
          | .ok result2 => (.ok result2, ["podzamenu", "prof_rf"])
          | .error (.http s2 k2) =>
            let _ := (s2, k2)
            (.error (.http status errKey), ["podzamenu", "prof_rf"])
          | .error e2 => (.error e2, ["podzamenu", "prof_rf"])
        else
          (.error (.http status errKey), ["podzamenu"])
      | _ => (.error e, ["podzamenu"])

/-- `MAX_RETRIES` (podzamenu_lookup_service.py:33). -/
def MAX_RETRIES : Nat := 2

/-- The retry loop of the `lookup` endpoint (lines 1736-1762).
`outcome n` is what the routed attempt number `n` (0-based) would produce;
the second result component counts the attempts actually made.
`fuel = MAX_RETRIES - attempt` renders the loop guard
`attempt < MAX_RETRIES`; an `HTTPException` is re-raised unchanged, a
timeout-class failure with fuel left continues the loop, and any other
break leaves the loop to raise the wrapping `LOOKUP_ERROR` exception. -/
def lookupAttempts (outcome : Nat → Except LookupError LookupResponse) :
    Nat → Nat → Except LookupError LookupResponse × Nat
  | attempt, fuel =>
    match outcome attempt, fuel with
    | .ok r, _ => (.ok r, attempt + 1)
    | .error (.http s k), _ => (.error (.http s k), attempt + 1)
    | .error (.timeoutExc m), f + 1 =>
      let _ := m
      lookupAttempts outcome (attempt + 1) f
    | .error (.timeoutExc _), 0 => (.error (.http 500 (some "LOOKUP_ERROR")), attempt + 1)
    | .error (.otherExc _), _ => (.error (.http 500 (some "LOOKUP_ERROR")), attempt + 1)

/-- The `lookup` endpoint (podzamenu_lookup_service.py:1728): validate the
request value, then run routed attempts under the retry policy. -/
def lookupEndpoint (value : String) (outcome : Nat → Except LookupError LookupResponse) :
    Except LookupError LookupResponse × Nat :=
  if value == "" || pyStrip value == "" then
    (.error (.http 400 none), 0)
  else
    lookupAttempts outcome 0 MAX_RETRIES

end Podz


namespace Podz

/-- A podzamenu environment with every extraction empty, used as the base
of the concrete environments below. -/
def emptyPodzEnv : PodzEnv :=
  { html := "", metaJs := [], kppHint := none,
    gearboxModelFromTable := none, gearboxFactoryFromTable := none,
    aggregatesHint := none, vehicleTitle := none, metaFromPage := [],
    kppDescResult := (none, none), aggModel := none, modelFromPage := none,
    factoryCodeFromHtml := none, fordModelOf := fun _ => none,
    navReached := false, detailFactoryCode := none, detailModel := none,
    strategy1Rows := [], strategy2Rows := [], strategy2ModelHint := none,
    strategy3Rows := [] }

/-- A podzamenu environment reaching the detail page with one valid
candidate row, mirroring the spec's end-to-end example (model "0B5", table
row ("0B5300012A", "Коробка передач в сборе")). -/
def podzFoundEnv : PodzEnv :=
  { emptyPodzEnv with
      gearboxModelFromTable := some "0B5",
      navReached := true,
      strategy1Rows := [("0B5300012A", "Коробка передач в сборе")] }

/-- The response `podzFoundEnv` produces for a non-VW, non-Ford VIN. -/
def podzFoundResp : LookupResponse :=
  { vehicleMeta := [],
    gearbox := { model := some "0B5", factoryCode := none,
                 oem := some "0B5300012A",
                 oemCandidates := [{ oem := "0B5300012A", name := "Коробка передач в сборе" }],
                 oemStatus := "FOUND",
                 needsManualKppCode := false } }

/-- A prof_rf environment whose page carries the header
"Коробка передач MANUAL": the header extractor fires on the all-letter
token, which the OEM validity filter rejects.  The page has no tables, no
meta labels and no block sections, so every abstracted parser returns its
value on this page: empty. -/
def profHeaderEnv : ProfEnv :=
  { html := "<p>Коробка передач MANUAL</p>", metaFromPage := [],
    blockedRows := [], oemTableRows := [], modelFromPage := none }

/-- The response `profHeaderEnv` produces. -/
def profHeaderResp : LookupResponse :=
  { vehicleMeta := [],
    gearbox := { model := some "Коробка передач MANUAL", factoryCode := none,
                 oem := some "MANUAL",
                 oemCandidates := [{ oem := "MANUAL", name := "Коробка передач MANUAL" }],
                 oemStatus := "FOUND",
                 needsManualKppCode := false } }

/-- Router environment: podzamenu succeeds with FOUND. -/
def routerFoundEnv : RouterEnv :=
  { strategy := "auto",
    podzOutcome := .ok podzFoundResp,
    profOutcome := .error (.otherExc "never awaited") }

/-- Router environment: podzamenu raises NOT_FOUND, prof_rf raises
PARSE_FAILED. -/
def routerFallbackEnv : RouterEnv :=
  { strategy := "auto",
    podzOutcome := .error (.http 404 (some "NOT_FOUND")),
    profOutcome := .error (.http 500 (some "PARSE_FAILED")) }

/-- A podzamenu environment whose single raw candidate passes OEM validity
but is excluded by the name filter ("фильтр" is an exclude keyword). -/
def podzFilteredNameEnv : PodzEnv :=
  { emptyPodzEnv with
      navReached := true,
      strategy1Rows := [("123456789", "фильтр")] }

/-- A VW-group early-exit environment: a model code is extracted from the
search-result table. -/
def podzVwEnv : PodzEnv :=
  { emptyPodzEnv with gearboxModelFromTable := some "0B5" }

/-- The response `podzFilteredNameEnv` produces: the validity-passing row
is retained in oemCandidates and even selected as the OEM, although the
name filter excludes it from the survivor list. -/
def podzFilteredNameResp : LookupResponse :=
  { vehicleMeta := [],
    gearbox := { model := none, factoryCode := none, oem := some "123456789",
                 oemCandidates := [{ oem := "123456789", name := "фильтр" }],
                 oemStatus := "FOUND",
                 needsManualKppCode := false } }

/-- An attempt-outcome function for the endpoint: every routed attempt
raises the HTTP-mapped NOT_FOUND error. -/
def alwaysNotFoundOutcome : Nat → Except LookupError LookupResponse :=
  fun _ => .error (.http 404 (some "NOT_FOUND"))

end Podz


namespace Podz

theorem mem_insertLE (le : α → α → Bool) (x a : α) (l : List α) :
    x ∈ insertLE le a l ↔ x = a ∨ x ∈ l := by
  induction l with
  | nil => simp [insertLE]
  | cons b t ih =>
    cases h : le a b with
    | true => simp [insertLE, h]
    | false =>
      simp only [insertLE, h, Bool.false_eq_true, if_false, List.mem_cons, ih]
      tauto

theorem mem_sortLE (le : α → α → Bool) (x : α) (l : List α) :
    x ∈ sortLE le l ↔ x ∈ l := by
  induction l with
  | nil => simp [sortLE]
  | cons a t ih => simp [sortLE, mem_insertLE, ih]

theorem pairwise_insertLE (le : α → α → Bool)
    (total : ∀ a b, le a b = true ∨ le b a = true)
    (trans : ∀ a b c, le a b = true → le b c = true → le a c = true)
    (a : α) (l : List α) (h : l.Pairwise (fun x y => le x y = true)) :
    (insertLE le a l).Pairwise (fun x y => le x y = true) := by
  induction l with
  | nil => simp [insertLE]
  | cons b t ih =>
    obtain ⟨hb, ht⟩ := List.pairwise_cons.mp h
    cases hab : le a b with
    | true =>
      simp only [insertLE, hab, if_true]
      refine List.Pairwise.cons ?_ h
      intro y hy
      rcases List.mem_cons.mp hy with rfl | hyt
      · exact hab
      · exact trans a b y hab (hb y hyt)
    | false =>
      have hba : le b a = true := (total a b).resolve_left (by simp [hab])
      simp only [insertLE, hab, Bool.false_eq_true, if_false]
      refine List.Pairwise.cons ?_ (ih ht)
      intro y hy
      rcases (mem_insertLE le y a t).mp hy with rfl | hyt
      · exact hba
      · exact hb y hyt

theorem pairwise_sortLE (le : α → α → Bool)
    (total : ∀ a b, le a b = true ∨ le b a = true)
    (trans : ∀ a b c, le a b = true → le b c = true → le a c = true)
    (l : List α) :
    (sortLE le l).Pairwise (fun x y => le x y = true) := by
  induction l with
  | nil => simp [sortLE]
  | cons a t ih => exact pairwise_insertLE le total trans a _ ih

theorem oemSortLE_total (a b : String × String) :
    oemSortLE a b = true ∨ oemSortLE b a = true := by
  cases pa : has_priority_term a.2 <;> cases pb : has_priority_term b.2 <;>
    simp [oemSortLE, pa, pb]
  all_goals exact le_total a.2.data b.2.data

theorem oemSortLE_trans (a b c : String × String) :
    oemSortLE a b = true → oemSortLE b c = true → oemSortLE a c = true := by
  cases pa : has_priority_term a.2 <;> cases pb : has_priority_term b.2 <;>
    cases pc : has_priority_term c.2 <;> simp [oemSortLE, pa, pb, pc]
  all_goals (intro h1 h2; exact le_trans h1 h2)

theorem mem_filter_oem_candidates (cands : List (String × String)) (b : Bool)
    (p : String × String) (h : p ∈ filter_oem_candidates cands b) : p ∈ cands := by
  unfold filter_oem_candidates at h
  cases b with
  | false => exact (List.mem_filter.mp h).1
  | true => exact (List.mem_filter.mp ((mem_sortLE _ _ _).mp h)).1

theorem validOemLoop_fst (rows : List (String × String)) (fc : Option String) :
    (validOemLoop rows fc).1 = rows.filter (fun p => is_valid_gearbox_oem p.1) := by
  induction rows generalizing fc with
  | nil => simp [validOemLoop]
  | cons p rest ih =>
    obtain ⟨o, n⟩ := p
    by_cases hv : is_valid_gearbox_oem o = true
    · simp [validOemLoop, hv, ih]
    · by_cases hf : (is_factory_code o && !pyTruthy fc) = true
      · simp [validOemLoop, hv, hf, ih]
      · simp [validOemLoop, hv, hf, ih]

theorem headD_mem (l : List α) (d : α) (h : l.isEmpty = false) : l.headD d ∈ l := by
  cases l with
  | nil => simp at h
  | cons a t => simp [List.headD]

theorem is_valid_oem_ne_empty (s : String) (h : is_valid_gearbox_oem s = true) :
    s ≠ "" := by
  intro he
  subst he
  simp [is_valid_gearbox_oem] at h

theorem strOrNone_of_valid (s : String) (h : is_valid_gearbox_oem s = true) :
    strOrNone s = some s := by
  have hne := is_valid_oem_ne_empty s h
  simp [strOrNone, hne]

theorem pyTruthy_of_valid (s : String) (h : is_valid_gearbox_oem s = true) :
    pyTruthy (some s) = true := by
  have hne := is_valid_oem_ne_empty s h
  simp [pyTruthy, hne]

theorem podzSelectOem_oemCandidates (v c : List (String × String)) (g : GearboxInfo) :
    (podzSelectOem v c g).oemCandidates = g.oemCandidates := by
  unfold podzSelectOem
  dsimp only
  split_ifs <;> rfl

theorem podzSelectOem_needsManual (v c : List (String × String)) (g : GearboxInfo) :
    (podzSelectOem v c g).needsManualKppCode = g.needsManualKppCode := by
  unfold podzSelectOem
  dsimp only
  split_ifs <;> rfl

theorem podzSelectOem_status (v c : List (String × String)) (g : GearboxInfo) :
    (podzSelectOem v c g).oemStatus = "FOUND" ∨
    (podzSelectOem v c g).oemStatus = "NOT_FOUND" ∨
    (podzSelectOem v c g).oemStatus = g.oemStatus := by
  unfold podzSelectOem
  dsimp only
  split_ifs <;> simp

theorem podzSelectOem_found (v c : List (String × String)) (g : GearboxInfo)
    (hv : ∀ p ∈ v, is_valid_gearbox_oem p.1 = true)
    (hg : g.oemStatus ≠ "FOUND")
    (hf : (podzSelectOem v c g).oemStatus = "FOUND") :
    ∃ s, (podzSelectOem v c g).oem = some s ∧ s ≠ "" ∧ is_valid_gearbox_oem s = true := by
  unfold podzSelectOem at hf ⊢
  cases hve : v.isEmpty with
  | true =>
    simp only [hve, Bool.not_true, Bool.false_eq_true, if_false] at hf ⊢
    cases hce : c.isEmpty with
    | true => simp only [hce, Bool.not_true, Bool.false_eq_true, if_false] at hf; exact absurd hf hg
    | false => simp [hce] at hf
  | false =>
    simp only [hve, Bool.not_false, if_true] at hf ⊢
    by_cases hfe : (filter_oem_candidates v true).isEmpty = true
    · simp only [hfe, Bool.not_true, Bool.false_eq_true, if_false, if_true] at hf ⊢
      have hmem : (v.headD ("", "")) ∈ v := headD_mem v _ hve
      have hval := hv _ hmem
      have hsome := strOrNone_of_valid _ hval
      refine ⟨(v.headD ("", "")).1, ?_, is_valid_oem_ne_empty _ hval, hval⟩
      simp only [List.headD_eq_head?_getD] at hsome
      simp [hsome]
    · have hfe' : (filter_oem_candidates v true).isEmpty = false := by
        cases hx : (filter_oem_candidates v true).isEmpty
        · rfl
        · exact absurd hx hfe
      simp only [hfe', Bool.not_false, if_true] at hf ⊢
      have hmem : ((filter_oem_candidates v true).headD ("", "")) ∈ filter_oem_candidates v true :=
        headD_mem _ _ hfe'
      have hval := hv _ (mem_filter_oem_candidates v true _ hmem)
      have hsome := strOrNone_of_valid _ hval
      refine ⟨((filter_oem_candidates v true).headD ("", "")).1, ?_,
        is_valid_oem_ne_empty _ hval, hval⟩
      simp only [List.headD_eq_head?_getD] at hsome
      simp [hsome]

theorem podzDetailRefine_preserve (env : PodzEnv) (g0 : GearboxInfo) :
    (podzDetailRefine env g0).oem = g0.oem ∧
    (podzDetailRefine env g0).oemStatus = g0.oemStatus ∧
    (podzDetailRefine env g0).oemCandidates = g0.oemCandidates ∧
    (podzDetailRefine env g0).needsManualKppCode = g0.needsManualKppCode := by
  unfold podzDetailRefine
  exact ⟨rfl, rfl, rfl, rfl⟩

theorem podzNav_oemCandidates (env : PodzEnv) (g0 : GearboxInfo)
    (h : g0.oemCandidates = []) :
    (podzNavGearbox env g0).oemCandidates =
      (((podzCandidatesRaw env).filter (fun p => is_valid_gearbox_oem p.1)).take 10).map
        (fun p => ({ oem := p.1, name := p.2 } : GearboxOemCandidate)) := by
  unfold podzNavGearbox podzCandidatesRaw
  cases hn : env.navReached with
  | false => simp [hn, h]
  | true =>
    simp only [hn, if_true]
    rw [podzSelectOem_oemCandidates]
    simp [validOemLoop_fst]

theorem podzNav_needsManual (env : PodzEnv) (g0 : GearboxInfo) :
    (podzNavGearbox env g0).needsManualKppCode = g0.needsManualKppCode := by
  unfold podzNavGearbox
  cases hn : env.navReached with
  | false => simp [hn]
  | true =>
    simp only [hn, if_true]
    rw [podzSelectOem_needsManual]
    exact (podzDetailRefine_preserve env g0).2.2.2

theorem podzNav_status (env : PodzEnv) (g0 : GearboxInfo)
    (hs : g0.oemStatus = "NOT_AVAILABLE") :
    (podzNavGearbox env g0).oemStatus = "FOUND" ∨
    (podzNavGearbox env g0).oemStatus = "NOT_FOUND" ∨
    (podzNavGearbox env g0).oemStatus = "NOT_AVAILABLE" := by
  unfold podzNavGearbox
  cases hn : env.navReached with
  | false => simp [hn, hs]
  | true =>
    simp only [hn, if_true]
    rcases podzSelectOem_status _ _ _ with h | h | h
    · exact .inl h
    · exact .inr (.inl h)
    · refine .inr (.inr ?_)
      rw [h]
      show (podzDetailRefine env g0).oemStatus = "NOT_AVAILABLE"
      rw [(podzDetailRefine_preserve env g0).2.1, hs]

theorem podzNav_found (env : PodzEnv) (g0 : GearboxInfo)
    (hs : g0.oemStatus = "NOT_AVAILABLE")
    (hf : (podzNavGearbox env g0).oemStatus = "FOUND") :
    ∃ s, (podzNavGearbox env g0).oem = some s ∧ s ≠ "" ∧ is_valid_gearbox_oem s = true := by
  unfold podzNavGearbox at hf ⊢
  cases hn : env.navReached with
  | false =>
    rw [hn] at hf
    simp only [Bool.false_eq_true, if_false] at hf
    rw [hs] at hf
    simp at hf
  | true =>
    simp only [hn, if_true] at hf ⊢
    refine podzSelectOem_found _ _ _ ?_ ?_ hf
    · intro p hp
      rw [validOemLoop_fst] at hp
      exact (List.mem_filter.mp hp).2
    · show ¬(podzDetailRefine env g0).oemStatus = "FOUND"
      rw [(podzDetailRefine_preserve env g0).2.1, hs]
      simp

theorem podzStage_proceed_eq (idType value : String) (env : PodzEnv)
    (meta : List (String × String)) (g : GearboxInfo)
    (h : podzStage idType value env = .proceed meta g) :
    ∃ gm fc, g = podzNavGearbox env
      { model := gm, factoryCode := fc, oem := none, oemCandidates := [],
        oemStatus := "NOT_AVAILABLE", needsManualKppCode := false } := by
  simp only [podzStage] at h
  split_ifs at h
  all_goals first
    | exact PodzStage.noConfusion h
    | (injection h with h1 h2; exact ⟨_, _, h2.symm⟩)

theorem podzStage_earlyExit (idType value : String) (env : PodzEnv)
    (resp : LookupResponse)
    (h : podzStage idType value env = .earlyExit resp) :
    resp.gearbox.oemStatus = "MODEL_ONLY" ∧ resp.gearbox.oem = none ∧
    resp.gearbox.oemCandidates = [] ∧ idType = "VIN" ∧
    (is_vw_group value = true ∨ is_ford value = true) := by
  simp only [podzStage] at h
  split_ifs at h with h1 h2 h3 h4
  · injection h with h'
    subst h'
    simp only [Bool.and_eq_true, beq_iff_eq] at h2
    exact ⟨rfl, rfl, rfl, h2.1.2, .inl h2.2⟩
  · injection h with h'
    subst h'
    simp only [Bool.and_eq_true, beq_iff_eq] at h3
    exact ⟨rfl, rfl, rfl, h3.1, .inr h3.2⟩

theorem podzFinalize_ok (idType : String) (meta : List (String × String))
    (g : GearboxInfo) (r : LookupResponse)
    (h : podzFinalize idType meta g = .ok r) :
    r.vehicleMeta = meta ∧ r.gearbox.oemStatus = g.oemStatus ∧
    r.gearbox.oem = g.oem ∧ r.gearbox.oemCandidates = g.oemCandidates ∧
    r.gearbox.model = g.model := by
  simp only [podzFinalize] at h
  split_ifs at h
  all_goals first
    | exact Except.noConfusion h
    | (injection h with h'; subst h'; simp)

theorem hasThreeDigitRun_iff (l : List Char) :
    hasThreeDigitRun l = true ↔
      ∃ a b c, a.isDigit = true ∧ b.isDigit = true ∧ c.isDigit = true ∧
        [a, b, c] <:+: l := by
  induction l with
  | nil =>
    simp only [hasThreeDigitRun]
    constructor
    · intro h; cases h
    · rintro ⟨a, b, c, -, -, -, h⟩
      have := h.length_le
      simp at this
  | cons x t ih =>
    cases t with
    | nil =>
      simp only [hasThreeDigitRun]
      constructor
      · intro h; cases h
      · rintro ⟨a, b, c, -, -, -, h⟩
        have := h.length_le
        simp at this
    | cons y u =>
      cases u with
      | nil =>
        simp only [hasThreeDigitRun]
        constructor
        · intro h; cases h
        · rintro ⟨a, b, c, -, -, -, h⟩
          have := h.length_le
          simp at this
      | cons z v =>
        simp only [hasThreeDigitRun, Bool.or_eq_true, Bool.and_eq_true]
        constructor
        · rintro (⟨⟨hx, hy⟩, hz⟩ | h)
          · exact ⟨x, y, z, hx, hy, hz, ⟨[], v, rfl⟩⟩
          · obtain ⟨a, b, c, ha, hb, hc, hinf⟩ := (ih).mp h
            exact ⟨a, b, c, ha, hb, hc, List.infix_cons hinf⟩
        · rintro ⟨a, b, c, ha, hb, hc, hinf⟩
          rcases List.infix_cons_iff.mp hinf with hpre | hinf'
          · obtain ⟨rfl, hpre2⟩ := List.cons_prefix_cons.mp hpre
            obtain ⟨rfl, hpre3⟩ := List.cons_prefix_cons.mp hpre2
            obtain ⟨rfl, -⟩ := List.cons_prefix_cons.mp hpre3
            exact .inl ⟨⟨ha, hb⟩, hc⟩
          · exact .inr (ih.mpr ⟨a, b, c, ha, hb, hc, hinf'⟩)

theorem length_eq_toList_length (s : String) : s.length = s.toList.length := rfl

theorem strHasChar_false_iff (s : String) (c : Char) :
    strHasChar s c = false ↔ c ∉ s.toList := by
  simp [strHasChar, List.contains]

theorem strHasChar_true_iff (s : String) (c : Char) :
    strHasChar s c = true ↔ c ∈ s.toList := by
  simp [strHasChar, List.contains]

theorem do_lookup_podzamenu_ok (idType value : String) (env : PodzEnv)
    (r : LookupResponse)
    (h : do_lookup_podzamenu idType value env = .ok r) :
    (podzStage idType value env = .earlyExit r) ∨
    (∃ meta g, podzStage idType value env = .proceed meta g ∧
      podzFinalize idType meta g = .ok r) := by
  unfold do_lookup_podzamenu at h
  cases hs : podzStage idType value env with
  | notFoundPage => rw [hs] at h; exact Except.noConfusion h
  | earlyExit resp =>
    rw [hs] at h
    injection h with h'
    subst h'
    exact .inl rfl
  | proceed meta g =>
    rw [hs] at h
    exact .inr ⟨meta, g, rfl, h⟩

end Podz

namespace Podz

/-- C2: `is_valid_gearbox_oem` accepts a string if and only if the string
contains a run of 3 or more consecutive digits, contains none of the
characters '(', ')', ';', ':', '=', and has length between 6 and 25
inclusive. -/
theorem claim_C2_oem_validity (code : String) :
    is_valid_gearbox_oem code = true ↔
      ((∃ a b c, a.isDigit = true ∧ b.isDigit = true ∧ c.isDigit = true ∧
          [a, b, c] <:+: code.toList) ∧
       (∀ ch ∈ code.toList, ch ≠ '(' ∧ ch ≠ ')' ∧ ch ≠ ';' ∧ ch ≠ ':' ∧ ch ≠ '=') ∧
       6 ≤ code.length ∧ code.length ≤ 25) := by
  unfold is_valid_gearbox_oem
  split_ifs with h1 h2 h3 h4 h5
  · simp only [Bool.or_eq_true, beq_iff_eq, decide_eq_true_eq] at h1
    constructor
    · intro h; cases h
    · rintro ⟨-, -, h6, -⟩
      rcases h1 with rfl | hlen
      · simp at h6
      · omega
  · simp only [Bool.or_eq_true] at h2
    constructor
    · intro h; cases h
    · rintro ⟨-, hch, -⟩
      rcases h2 with hc | hc
      · exact ((hch '(' ((strHasChar_true_iff _ _).mp hc)).1 rfl)
      · exact ((hch ')' ((strHasChar_true_iff _ _).mp hc)).2.1 rfl)
  · constructor
    · intro h; cases h
    · rintro ⟨⟨a, b, c, ha, hb, hc, hinf⟩, -, -⟩
      have hx : hasThreeDigitRun code.data = true :=
        (hasThreeDigitRun_iff code.toList).mpr ⟨a, b, c, ha, hb, hc, hinf⟩
      simp [hx] at h3
  · simp only [Bool.or_eq_true] at h4
    constructor
    · intro h; cases h
    · rintro ⟨-, hch, -⟩
      rcases h4 with (hc | hc) | hc
      · exact ((hch ';' ((strHasChar_true_iff _ _).mp hc)).2.2.1 rfl)
      · exact ((hch ':' ((strHasChar_true_iff _ _).mp hc)).2.2.2.1 rfl)
      · exact ((hch '=' ((strHasChar_true_iff _ _).mp hc)).2.2.2.2 rfl)
  · simp only [decide_eq_true_eq] at h5
    constructor
    · intro h; cases h
    · rintro ⟨-, -, -, h25⟩
      omega
  · simp only [Bool.or_eq_true, beq_iff_eq, decide_eq_true_eq, not_or] at h1 h2 h4
    simp only [decide_eq_true_eq, not_lt] at h5
    simp only [Bool.not_eq_true', Bool.not_eq_false] at h3
    constructor
    · intro _
      refine ⟨(hasThreeDigitRun_iff code.toList).mp h3, ?_, ?_, h5⟩
      · intro ch hch
        refine ⟨?_, ?_, ?_, ?_, ?_⟩ <;> intro hE <;> subst hE
        · exact absurd ((strHasChar_true_iff _ _).mpr hch) (by simp [h2.1])
        · exact absurd ((strHasChar_true_iff _ _).mpr hch) (by simp [h2.2])
        · exact absurd ((strHasChar_true_iff _ _).mpr hch) (by simp [h4.1.1])
        · exact absurd ((strHasChar_true_iff _ _).mpr hch) (by simp [h4.1.2])
        · exact absurd ((strHasChar_true_iff _ _).mpr hch) (by simp [h4.2])
      · omega
    · intro _
      rfl

end Podz

namespace Podz

/-- C3: under auto routing for a VIN identifier, if the podzamenu resolver
returns a result whose gearbox.oemStatus equals "FOUND", the routed lookup
returns that result and the prof_rf resolver is never invoked. -/
theorem claim_C3_auto_found_short_circuits (env : RouterEnv) (r : LookupResponse)
    (hstrat : env.strategy = "auto")
    (hpodz : env.podzOutcome = .ok r)
    (hfound : r.gearbox.oemStatus = "FOUND") :
    do_lookup_routed "VIN" env = (.ok r, ["podzamenu"]) ∧
    "prof_rf" ∉ (do_lookup_routed "VIN" env).2 := by
  have h : do_lookup_routed "VIN" env = (.ok r, ["podzamenu"]) := by
    unfold do_lookup_routed
    rw [hstrat, hpodz]
    simp [hfound]
  refine ⟨h, ?_⟩
  rw [h]
  simp

/-- Witness for C3: a concrete FOUND-returning router environment. -/
theorem claim_C3_witness :
    do_lookup_routed "VIN" routerFoundEnv = (.ok podzFoundResp, ["podzamenu"]) ∧
    "prof_rf" ∉ (do_lookup_routed "VIN" routerFoundEnv).2 :=
  claim_C3_auto_found_short_circuits routerFoundEnv podzFoundResp rfl rfl rfl

/-- C4: under auto routing for a VIN identifier, if the podzamenu resolver
fails with NOT_FOUND or PARSE_FAILED, the prof_rf resolver is invoked
exactly once; and if the prof_rf resolver also fails (raising an
HTTPException, the failure mode of the resolvers), the original podzamenu
error term — not a wrapped one — is surfaced to the caller. -/
theorem claim_C4_fallback_original_error (env : RouterEnv) (s : Nat) (k : Option String)
    (hstrat : env.strategy = "auto")
    (hpodz : env.podzOutcome = .error (.http s k))
    (hfail : (s = 404 ∧ k = some "NOT_FOUND") ∨ (s = 500 ∧ k = some "PARSE_FAILED")) :
    (do_lookup_routed "VIN" env).2.count "prof_rf" = 1 ∧
    (∀ s2 k2, env.profOutcome = .error (.http s2 k2) →
      (do_lookup_routed "VIN" env).1 = .error (.http s k)) := by
  constructor
  · unfold do_lookup_routed
    rw [hstrat, hpodz]
    rcases hfail with ⟨rfl, rfl⟩ | ⟨rfl, rfl⟩ <;>
      (cases hp : env.profOutcome with
       | ok r2 => simp
       | error e2 => cases e2 <;> simp)
  · intro s2 k2 hp
    unfold do_lookup_routed
    rw [hstrat, hpodz, hp]
    rcases hfail with ⟨rfl, rfl⟩ | ⟨rfl, rfl⟩ <;> simp

/-- Witness for C4: podzamenu NOT_FOUND, prof_rf PARSE_FAILED. -/
theorem claim_C4_witness :
    (do_lookup_routed "VIN" routerFallbackEnv).2.count "prof_rf" = 1 ∧
    (do_lookup_routed "VIN" routerFallbackEnv).1 = .error (.http 404 (some "NOT_FOUND")) := by
  have h := claim_C4_fallback_original_error routerFallbackEnv 404 (some "NOT_FOUND")
    rfl rfl (.inl ⟨rfl, rfl⟩)
  exact ⟨h.1, h.2 500 (some "PARSE_FAILED") rfl⟩

theorem lookupAttempts_ok (outcome : Nat → Except LookupError LookupResponse)
    (a f : Nat) (r : LookupResponse) (h : outcome a = .ok r) :
    lookupAttempts outcome a f = (.ok r, a + 1) := by
  unfold lookupAttempts
  rw [h]

theorem lookupAttempts_http (outcome : Nat → Except LookupError LookupResponse)
    (a f s : Nat) (k : Option String) (h : outcome a = .error (.http s k)) :
    lookupAttempts outcome a f = (.error (.http s k), a + 1) := by
  unfold lookupAttempts
  rw [h]

theorem lookupAttempts_timeout_succ (outcome : Nat → Except LookupError LookupResponse)
    (a f : Nat) (m : String) (h : outcome a = .error (.timeoutExc m)) :
    lookupAttempts outcome a (f + 1) = lookupAttempts outcome (a + 1) f := by
  conv in lookupAttempts outcome a (f + 1) => unfold lookupAttempts
  rw [h]

theorem lookupAttempts_timeout_zero (outcome : Nat → Except LookupError LookupResponse)
    (a : Nat) (m : String) (h : outcome a = .error (.timeoutExc m)) :
    lookupAttempts outcome a 0 = (.error (.http 500 (some "LOOKUP_ERROR")), a + 1) := by
  unfold lookupAttempts
  rw [h]

theorem lookupAttempts_other (outcome : Nat → Except LookupError LookupResponse)
    (a f : Nat) (m : String) (h : outcome a = .error (.otherExc m)) :
    lookupAttempts outcome a f = (.error (.http 500 (some "LOOKUP_ERROR")), a + 1) := by
  unfold lookupAttempts
  rw [h]

theorem lookupAttempts_count_le (outcome : Nat → Except LookupError LookupResponse) :
    ∀ (f a : Nat), (lookupAttempts outcome a f).2 ≤ a + f + 1 := by
  intro f
  induction f with
  | zero =>
    intro a
    cases h : outcome a with
    | ok r => simp [lookupAttempts_ok outcome a 0 r h]
    | error e =>
      cases e with
      | http s k => simp [lookupAttempts_http outcome a 0 s k h]
      | timeoutExc m => simp [lookupAttempts_timeout_zero outcome a m h]
      | otherExc m => simp [lookupAttempts_other outcome a 0 m h]
  | succ f ih =>
    intro a
    cases h : outcome a with
    | ok r => simp [lookupAttempts_ok outcome a (f + 1) r h]
    | error e =>
      cases e with
      | http s k => simp [lookupAttempts_http outcome a (f + 1) s k h]
      | timeoutExc m =>
        have := ih (a + 1)
        rw [lookupAttempts_timeout_succ outcome a f m h]
        omega
      | otherExc m => simp [lookupAttempts_other outcome a (f + 1) m h]

theorem lookupAttempts_retry_reason (outcome : Nat → Except LookupError LookupResponse) :
    ∀ (f a i : Nat), i + 1 < (lookupAttempts outcome a f).2 →
      i < a ∨ ∃ m, outcome i = .error (.timeoutExc m) := by
  intro f
  induction f with
  | zero =>
    intro a i hlt
    left
    cases h : outcome a with
    | ok r => rw [lookupAttempts_ok outcome a 0 r h] at hlt; omega
    | error e =>
      cases e with
      | http s k => rw [lookupAttempts_http outcome a 0 s k h] at hlt; omega
      | timeoutExc m => rw [lookupAttempts_timeout_zero outcome a m h] at hlt; omega
      | otherExc m => rw [lookupAttempts_other outcome a 0 m h] at hlt; omega
  | succ f ih =>
    intro a i hlt
    cases h : outcome a with
    | ok r => rw [lookupAttempts_ok outcome a (f + 1) r h] at hlt; left; omega
    | error e =>
      cases e with
      | http s k => rw [lookupAttempts_http outcome a (f + 1) s k h] at hlt; left; omega
      | otherExc m => rw [lookupAttempts_other outcome a (f + 1) m h] at hlt; left; omega
      | timeoutExc m =>
        rw [lookupAttempts_timeout_succ outcome a f m h] at hlt
        rcases ih (a + 1) i hlt with hia | hex
        · rcases Nat.lt_succ_iff_lt_or_eq.mp hia with h' | rfl
          · exact .inl h'
          · exact .inr ⟨m, h⟩
        · exact .inr hex

/-- C8: the lookup endpoint performs at most MAX_RETRIES = 2 additional
attempts after the first, a retry happens only when the preceding attempt
failed with a timeout-class error, and every non-timeout failure of the
first attempt ends the loop at once — an HTTPException (including the
HTTP-mapped NOT_FOUND and PARSE_FAILED errors) is re-raised unchanged,
any other exception is raised wrapped as LOOKUP_ERROR, in both cases
after exactly one attempt. -/
theorem claim_C8_retry_policy (value : String)
    (outcome : Nat → Except LookupError LookupResponse)
    (hval : pyStrip value ≠ "") :
    (lookupEndpoint value outcome).2 ≤ MAX_RETRIES + 1 ∧
    (∀ i, i + 1 < (lookupEndpoint value outcome).2 →
       ∃ m, outcome i = .error (.timeoutExc m)) ∧
    (∀ s k, outcome 0 = .error (.http s k) →
       lookupEndpoint value outcome = (.error (.http s k), 1)) ∧
    (∀ m, outcome 0 = .error (.otherExc m) →
       lookupEndpoint value outcome = (.error (.http 500 (some "LOOKUP_ERROR")), 1)) := by
  have hv : value ≠ "" := by
    intro he
    subst he
    exact hval rfl
  have hE : lookupEndpoint value outcome = lookupAttempts outcome 0 MAX_RETRIES := by
    unfold lookupEndpoint
    simp [hv, hval]
  refine ⟨?_, ?_, ?_, ?_⟩
  · rw [hE]
    simpa using lookupAttempts_count_le outcome MAX_RETRIES 0
  · intro i hi
    rw [hE] at hi
    rcases lookupAttempts_retry_reason outcome MAX_RETRIES 0 i hi with h0 | hm
    · omega
    · exact hm
  · intro s k h0
    rw [hE]
    show lookupAttempts outcome 0 MAX_RETRIES = (.error (.http s k), 1)
    rw [lookupAttempts_http outcome 0 MAX_RETRIES s k h0]
  · intro m h0
    rw [hE]
    show lookupAttempts outcome 0 MAX_RETRIES = (.error (.http 500 (some "LOOKUP_ERROR")), 1)
    rw [lookupAttempts_other outcome 0 MAX_RETRIES m h0]

/-- Witness for C8: every attempt raises the HTTP-mapped NOT_FOUND; the
endpoint surfaces it unchanged after exactly one attempt. -/
theorem claim_C8_witness :
    lookupEndpoint "WV1ZZZ7HZ8H020981" alwaysNotFoundOutcome
      = (.error (.http 404 (some "NOT_FOUND")), 1) := by
  have h := claim_C8_retry_policy "WV1ZZZ7HZ8H020981" alwaysNotFoundOutcome (by decide)
  exact h.2.2.1 404 (some "NOT_FOUND") rfl

end Podz
namespace Podz

theorem podzStage_proceed_props (idType value : String) (env : PodzEnv)
    (meta : List (String × String)) (g : GearboxInfo)
    (hst : podzStage idType value env = .proceed meta g) :
    (g.oemStatus = "FOUND" ∨ g.oemStatus = "NOT_FOUND" ∨ g.oemStatus = "NOT_AVAILABLE") ∧
    g.needsManualKppCode = false ∧
    (g.oemStatus = "FOUND" → ∃ s, g.oem = some s ∧ s ≠ "" ∧ is_valid_gearbox_oem s = true) ∧
    g.oemCandidates =
      (((podzCandidatesRaw env).filter (fun p => is_valid_gearbox_oem p.1)).take 10).map
        (fun p => ({ oem := p.1, name := p.2 } : GearboxOemCandidate)) := by
  obtain ⟨gm, fc, hg⟩ := podzStage_proceed_eq _ _ _ _ _ hst
  subst hg
  refine ⟨podzNav_status env _ rfl, ?_, ?_, podzNav_oemCandidates env _ rfl⟩
  · rw [podzNav_needsManual]
  · intro hf
    exact podzNav_found env _ rfl hf

/-- C1 (amended): for the podzamenu resolver, oemStatus = "FOUND" implies
gearbox.oem is a non-empty string accepted by is_valid_gearbox_oem; for
the prof_rf resolver, oemStatus = "FOUND" implies gearbox.oem is a
non-empty string (prof_rf does not apply the validity filter to the OEM
it resolves). -/
theorem claim_C1_found_oem :
    (∀ idType value env r, do_lookup_podzamenu idType value env = .ok r →
       r.gearbox.oemStatus = "FOUND" →
       ∃ s, r.gearbox.oem = some s ∧ s ≠ "" ∧ is_valid_gearbox_oem s = true) ∧
    (∀ vin env r, do_lookup_prof_rf vin env = .ok r →
       r.gearbox.oemStatus = "FOUND" →
       ∃ s, r.gearbox.oem = some s ∧ s ≠ "") := by
  constructor
  · intro idType value env r hok hfound
    rcases do_lookup_podzamenu_ok idType value env r hok with hearly | ⟨meta, g, hst, hfin⟩
    · obtain ⟨hstat, -, -, -, -⟩ := podzStage_earlyExit _ _ _ _ hearly
      exact absurd (hfound.symm.trans hstat) (by decide)
    · obtain ⟨-, -, hfprop, -⟩ := podzStage_proceed_props _ _ _ _ _ hst
      obtain ⟨-, hs, ho, -, -⟩ := podzFinalize_ok _ _ _ _ hfin
      rw [hs] at hfound
      obtain ⟨s, hoem, hne, hval⟩ := hfprop hfound
      refine ⟨s, ?_, hne, hval⟩
      rw [ho, hoem]
  · intro vin env r hok hfound
    unfold do_lookup_prof_rf at hok
    split_ifs at hok with h1
    dsimp only at hok
    split_ifs at hok with h2 h3
    · injection hok with h'
      subst h'
      cases hoem : (extract_from_prof_rf env).2.2.1 with
      | none => rw [hoem] at h3; simp [pyTruthy] at h3
      | some s =>
        rw [hoem] at h3
        refine ⟨s, by simp [hoem], ?_⟩
        intro he
        subst he
        simp [pyTruthy] at h3
    · injection hok with h'
      subst h'
      simp at hfound

/-- Counterexample to C1 as stated: on the page
"<p>Коробка передач MANUAL</p>" the prof_rf header extractor resolves
oem = "MANUAL"; the resolver returns oemStatus = "FOUND" although
is_valid_gearbox_oem rejects "MANUAL" (no digit run). -/
theorem claim_C1_counterexample :
    do_lookup_prof_rf "LVSHCAMB0CE123456" profHeaderEnv = .ok profHeaderResp ∧
    profHeaderResp.gearbox.oemStatus = "FOUND" ∧
    profHeaderResp.gearbox.oem = some "MANUAL" ∧
    is_valid_gearbox_oem "MANUAL" = false := by
  exact ⟨by decide, rfl, rfl, by decide⟩

/-- Witness for C1 (amended): both conjuncts applied at concrete runs. -/
theorem claim_C1_witness :
    (∃ s, podzFoundResp.gearbox.oem = some s ∧ s ≠ "" ∧ is_valid_gearbox_oem s = true) ∧
    (∃ s, profHeaderResp.gearbox.oem = some s ∧ s ≠ "") := by
  constructor
  · exact claim_C1_found_oem.1 "VIN" "JTMDDREV60D023449" podzFoundEnv podzFoundResp
      (by decide) rfl
  · exact claim_C1_found_oem.2 "LVSHCAMB0CE123456" profHeaderEnv profHeaderResp
      (by decide) rfl

/-- C5: in the podzamenu resolver, if after navigation and extraction
neither gearbox.model nor gearbox.oem was obtained, the resolver fails
with PARSE_FAILED — except when identifierKind is FRAME, in which case a
LookupResponse with needsManualKppCode = true is returned instead. -/
theorem claim_C5_parse_failed (idType value : String) (env : PodzEnv)
    (meta : List (String × String)) (g : GearboxInfo)
    (hst : podzStage idType value env = .proceed meta g)
    (hm : pyTruthy g.model = false) (ho : pyTruthy g.oem = false) :
    (idType ≠ "FRAME" →
       do_lookup_podzamenu idType value env = .error (.http 500 (some "PARSE_FAILED"))) ∧
    (idType = "FRAME" →
       do_lookup_podzamenu idType value env =
         .ok { vehicleMeta := meta, gearbox := { g with needsManualKppCode := true } }) := by
  have hlook : do_lookup_podzamenu idType value env = podzFinalize idType meta g := by
    unfold do_lookup_podzamenu
    rw [hst]
  obtain ⟨hstat3, hman, hfprop, -⟩ := podzStage_proceed_props _ _ _ _ _ hst
  have hNF : g.oemStatus ≠ "FOUND" := by
    intro hf
    obtain ⟨s, hoem, hne, -⟩ := hfprop hf
    rw [hoem] at ho
    simp [pyTruthy, hne] at ho
  have hstat : g.oemStatus = "NOT_FOUND" ∨ g.oemStatus = "NOT_AVAILABLE" := by
    rcases hstat3 with h | h | h
    · exact absurd h hNF
    · exact .inl h
    · exact .inr h
  constructor
  · intro hne
    rw [hlook]
    unfold podzFinalize
    have hframe : (idType == "FRAME") = false := by simp [hne]
    simp [hframe, hm, ho, hman]
  · intro hfr
    subst hfr
    rw [hlook]
    unfold podzFinalize
    rcases hstat with h | h <;> simp [h, hm, ho]

/-- Witness for C5: a FRAME run with nothing extracted returns
needsManualKppCode = true; a VIN run with nothing extracted raises
PARSE_FAILED. -/
theorem claim_C5_witness :
    do_lookup_podzamenu "FRAME" "GX110-0069622" emptyPodzEnv =
      .ok { vehicleMeta := [],
            gearbox := { model := none, factoryCode := none, oem := none,
                         oemCandidates := [], oemStatus := "NOT_AVAILABLE",
                         needsManualKppCode := true } } ∧
    do_lookup_podzamenu "VIN" "JTMDDREV60D023449" emptyPodzEnv =
      .error (.http 500 (some "PARSE_FAILED")) := by
  constructor
  · exact (claim_C5_parse_failed "FRAME" "GX110-0069622" emptyPodzEnv []
      { model := none, factoryCode := none, oem := none, oemCandidates := [],
        oemStatus := "NOT_AVAILABLE", needsManualKppCode := false }
      (by decide) rfl rfl).2 rfl
  · exact (claim_C5_parse_failed "VIN" "JTMDDREV60D023449" emptyPodzEnv []
      { model := none, factoryCode := none, oem := none, oemCandidates := [],
        oemStatus := "NOT_AVAILABLE", needsManualKppCode := false }
      (by decide) rfl rfl).1 (by decide)

end Podz

namespace Podz


/-- Counterexample to C6 as stated: with the single raw row
("123456789", "фильтр") the resolver retains the row in oemCandidates
(it passes OEM validity), while the candidate filter's survivor list is
empty ("фильтр" is an exclude keyword) — so oemCandidates is not the
survivor list truncated to 10. -/
theorem claim_C6_counterexample :
    do_lookup_podzamenu "VIN" "JTMDDREV60D023449" podzFilteredNameEnv
      = .ok podzFilteredNameResp ∧
    podzFilteredNameResp.gearbox.oemStatus ≠ "MODEL_ONLY" ∧
    podzFilteredNameResp.gearbox.oemCandidates ≠
      ((filter_oem_candidates ((podzCandidatesRaw podzFilteredNameEnv).filter
          (fun p => is_valid_gearbox_oem p.1)) false).take 10).map
        (fun p => ({ oem := p.1, name := p.2 } : GearboxOemCandidate)) := by
  exact ⟨by decide, by decide, by decide⟩

/-- C6 (amended): whenever the podzamenu resolver returns a response that
did not come from a MODEL_ONLY early exit, gearbox.oemCandidates equals
the full unranked list of raw candidates that pass is_valid_gearbox_oem,
truncated to its first 10 elements, regardless of which candidate is
selected as gearbox.oem; the name-based candidate filter's survivors
determine only the selected OEM. -/
theorem claim_C6_amended (idType value : String) (env : PodzEnv) (r : LookupResponse)
    (hok : do_lookup_podzamenu idType value env = .ok r)
    (hnmo : r.gearbox.oemStatus ≠ "MODEL_ONLY") :
    r.gearbox.oemCandidates =
      (((podzCandidatesRaw env).filter (fun p => is_valid_gearbox_oem p.1)).take 10).map
        (fun p => ({ oem := p.1, name := p.2 } : GearboxOemCandidate)) := by
  rcases do_lookup_podzamenu_ok idType value env r hok with hearly | ⟨meta, g, hst, hfin⟩
  · obtain ⟨hstat, -, -, -, -⟩ := podzStage_earlyExit _ _ _ _ hearly
    exact absurd hstat hnmo
  · obtain ⟨-, -, -, hcand⟩ := podzStage_proceed_props _ _ _ _ _ hst
    obtain ⟨-, -, -, hc, -⟩ := podzFinalize_ok _ _ _ _ hfin
    rw [hc, hcand]

/-- Witness for C6 (amended), at the FOUND end-to-end run. -/
theorem claim_C6_witness :
    podzFoundResp.gearbox.oemCandidates =
      (((podzCandidatesRaw podzFoundEnv).filter (fun p => is_valid_gearbox_oem p.1)).take 10).map
        (fun p => ({ oem := p.1, name := p.2 } : GearboxOemCandidate)) :=
  claim_C6_amended "VIN" "JTMDDREV60D023449" podzFoundEnv podzFoundResp (by decide) (by decide)

/-- C7: on the list [("X1", "Oil filter"), ("X2", "Коробка передач в
сборе"), ("X3", "Вариатор")] the candidate filter and ranker excludes X1
and places X2 before X3; and in general, in the ranked output, a
candidate without a priority term in its name never precedes one with a
priority term, and candidates with equal priority flags appear in
lexical (code-point) order of their names. -/
theorem claim_C7_ranker :
    (filter_oem_candidates
        [("X1", "Oil filter"), ("X2", "Коробка передач в сборе"), ("X3", "Вариатор")] true
      = [("X2", "Коробка передач в сборе"), ("X3", "Вариатор")]) ∧
    ∀ cands : List (String × String),
      (filter_oem_candidates cands true).Pairwise (fun a b =>
        (has_priority_term b.2 = true → has_priority_term a.2 = true) ∧
        (has_priority_term a.2 = has_priority_term b.2 → a.2 ≤ b.2)) := by
  constructor
  · decide
  · intro cands
    unfold filter_oem_candidates
    simp only [if_true]
    refine List.Pairwise.imp ?_
      (pairwise_sortLE oemSortLE oemSortLE_total oemSortLE_trans _)
    intro a b hab
    cases pa : has_priority_term a.2 <;> cases pb : has_priority_term b.2 <;>
      simp [oemSortLE, pa, pb] at hab ⊢
    · exact hab
    · exact hab

/-- C9: every resolver response with oemStatus = "MODEL_ONLY" has
gearbox.oem = none, and such a response arises only for a VIN whose WMI
is in the VW group or the Ford set (the two early exits); the prof_rf
resolver never returns MODEL_ONLY. -/
theorem claim_C9_model_only :
    (∀ idType value env r, do_lookup_podzamenu idType value env = .ok r →
       r.gearbox.oemStatus = "MODEL_ONLY" →
       r.gearbox.oem = none ∧ idType = "VIN" ∧
         (is_vw_group value = true ∨ is_ford value = true)) ∧
    (∀ vin env r, do_lookup_prof_rf vin env = .ok r →
       r.gearbox.oemStatus ≠ "MODEL_ONLY") := by
  constructor
  · intro idType value env r hok hmo
    rcases do_lookup_podzamenu_ok idType value env r hok with hearly | ⟨meta, g, hst, hfin⟩
    · obtain ⟨-, hoem, -, hid, hsrc⟩ := podzStage_earlyExit _ _ _ _ hearly
      exact ⟨hoem, hid, hsrc⟩
    · obtain ⟨hstat3, -, -, -⟩ := podzStage_proceed_props _ _ _ _ _ hst
      obtain ⟨-, hs, -, -, -⟩ := podzFinalize_ok _ _ _ _ hfin
      rw [hs] at hmo
      rcases hstat3 with h | h | h <;>
        exact absurd (h.symm.trans hmo) (by decide)
  · intro vin env r hok
    unfold do_lookup_prof_rf at hok
    split_ifs at hok with h1
    dsimp only at hok
    split_ifs at hok with h2 h3
    · injection hok with h'
      subst h'
      simp
    · injection hok with h'
      subst h'
      simp

/-- Witness for C9: the VW-group early exit at a concrete VIN. -/
theorem claim_C9_witness :
    ({ vehicleMeta := [],
       gearbox := { model := some "0B5", factoryCode := some "0B5", oem := none,
                    oemCandidates := [], oemStatus := "MODEL_ONLY",
                    needsManualKppCode := false } } : LookupResponse).gearbox.oem = none ∧
    "VIN" = "VIN" ∧
    (is_vw_group "WV1ZZZ7HZ8H020981" = true ∨ is_ford "WV1ZZZ7HZ8H020981" = true) :=
  claim_C9_model_only.1 "VIN" "WV1ZZZ7HZ8H020981" podzVwEnv _ (by decide) rfl

/-- C10: every pair placed into gearbox.oemCandidates by the podzamenu
resolver has an oem string accepted by is_valid_gearbox_oem — raw
candidates failing the validity filter never appear among the
candidates. -/
theorem claim_C10_candidates_valid (idType value : String) (env : PodzEnv)
    (r : LookupResponse) (hok : do_lookup_podzamenu idType value env = .ok r) :
    ∀ cand ∈ r.gearbox.oemCandidates, is_valid_gearbox_oem cand.oem = true := by
  intro cand hc
  rcases do_lookup_podzamenu_ok idType value env r hok with hearly | ⟨meta, g, hst, hfin⟩
  · obtain ⟨-, -, hcand, -, -⟩ := podzStage_earlyExit _ _ _ _ hearly
    rw [hcand] at hc
    cases hc
  · obtain ⟨-, -, -, hcand⟩ := podzStage_proceed_props _ _ _ _ _ hst
    obtain ⟨-, -, -, hcands, -⟩ := podzFinalize_ok _ _ _ _ hfin
    rw [hcands, hcand] at hc
    obtain ⟨p, hp, rfl⟩ := List.mem_map.mp hc
    exact (List.mem_filter.mp (List.mem_of_mem_take hp)).2

/-- Witness for C10 at the FOUND end-to-end run. -/
theorem claim_C10_witness :
    is_valid_gearbox_oem
      ({ oem := "0B5300012A", name := "Коробка передач в сборе" } : GearboxOemCandidate).oem
      = true :=
  claim_C10_candidates_valid "VIN" "JTMDDREV60D023449" podzFoundEnv podzFoundResp (by decide)
    { oem := "0B5300012A", name := "Коробка передач в сборе" } (by decide)

end Podz

/-- Scratch checks for the matchers. -/
example : Podz.parse_vehicle_title "KIA Spectra" = (some "KIA", some "Spectra") := by decide
example : Podz.parse_vehicle_title "OPEL / INSIGNIA-A" = (some "OPEL", some "INSIGNIA-A") := by decide
example : Podz.is_not_found "<b>Автомобиль не найден</b>" Podz.NOT_FOUND_PATTERNS = true := by decide
example : Podz.is_not_found "<p>Коробка передач MANUAL</p>" Podz.PROF_RF_NOT_FOUND_PATTERNS = false := by decide
example : Podz.extract_prof_rf_header_oem "<p>Коробка передач 3043001600</p>"
    = some ("Коробка передач 3043001600", "3043001600") := by decide
example : Podz.extract_prof_rf_header_oem "<p>Коробка передач MANUAL</p>"
    = some ("Коробка передач MANUAL", "MANUAL") := by decide
example : Podz.extract_prof_rf_header_oem "нет данных" = none := by decide

/-- Scratch: VW-group early exit. -/
example :
    Podz.do_lookup_podzamenu "VIN" "WV1ZZZ7HZ8H020981"
      { Podz.emptyPodzEnv with gearboxModelFromTable := some "0B5" }
    = .ok { vehicleMeta := [],
            gearbox := { model := some "0B5", factoryCode := some "0B5", oem := none,
                         oemCandidates := [], oemStatus := "MODEL_ONLY",
                         needsManualKppCode := false } } := by decide

/-- Scratch: end-to-end FOUND through navigation and strategy 1. -/
example :
    Podz.do_lookup_podzamenu "VIN" "JTMDDREV60D023449"
      { Podz.emptyPodzEnv with
          gearboxModelFromTable := some "0B5",
          navReached := true,
          strategy1Rows := [("0B5300012A", "Коробка передач в сборе")] }
    = .ok { vehicleMeta := [],
            gearbox := { model := some "0B5", factoryCode := none,
                         oem := some "0B5300012A",
                         oemCandidates := [{ oem := "0B5300012A", name := "Коробка передач в сборе" }],
                         oemStatus := "FOUND",
                         needsManualKppCode := false } } := by decide

/-- Scratch: prof_rf header path yields FOUND with a filter-invalid OEM. -/
example :
    Podz.do_lookup_prof_rf "LVSHCAMB0CE123456"
      { html := "<p>Коробка передач MANUAL</p>", metaFromPage := [],
        blockedRows := [], oemTableRows := [], modelFromPage := none }
    = .ok { vehicleMeta := [],
            gearbox := { model := some "Коробка передач MANUAL", factoryCode := none,
                         oem := some "MANUAL",
                         oemCandidates := [{ oem := "MANUAL", name := "Коробка передач MANUAL" }],
                         oemStatus := "FOUND",
                         needsManualKppCode := false } } := by decide

/-- Scratch: FRAME with nothing extracted returns needsManualKppCode. -/
example :
    Podz.do_lookup_podzamenu "FRAME" "GX110-0069622" Podz.emptyPodzEnv
    = .ok { vehicleMeta := [],
            gearbox := { model := none, factoryCode := none, oem := none,
                         oemCandidates := [], oemStatus := "NOT_AVAILABLE",
                         needsManualKppCode := true } } := by decide

/-- Scratch: VIN with nothing extracted raises PARSE_FAILED. -/
example :
    Podz.do_lookup_podzamenu "VIN" "JTMDDREV60D023449" Podz.emptyPodzEnv
    = .error (.http 500 (some "PARSE_FAILED")) := by decide

/-- C2 scratch check. -/
example : Podz.is_valid_gearbox_oem "09G300032P" = true := by decide
example : Podz.is_valid_gearbox_oem "QCE(6A)" = false := by decide
example : Podz.is_valid_gearbox_oem "MANUAL" = false := by decide
example : Podz.is_valid_gearbox_oem "0B5300012A" = true := by decide
example : Podz.is_factory_code "QCE(6A)" = true := by decide
example : Podz.is_factory_code "DQ250" = true := by decide
example : Podz.is_factory_code "09G300032P" = false := by decide
example : Podz.has_priority_term "Коробка передач в сборе" = true := by decide
example : Podz.has_priority_term "Вариатор" = false := by decide
example : Podz.filter_oem_candidates
    [("X1", "Oil filter"), ("X2", "Коробка передач в сборе"), ("X3", "Вариатор")] true
    = [("X2", "Коробка передач в сборе"), ("X3", "Вариатор")] := by decide
example : Podz.is_vw_group "WV1ZZZ7HZ8H020981" = true := by decide
example : Podz.is_vw_group "Xw8cj41z8ck253790" = true := by decide
example : Podz.is_ford "X9FSXXEEDS8S04800" = true := by decide
example : Podz.is_valid_model_candidate "rw88l" = false := by decide
example : Podz.is_valid_model_candidate "0B5" = true := by decide
example : Podz.is_valid_model_candidate "09.2008" = false := by decide
example : Podz.is_valid_model_candidate "ZSA44L" = false := by decide
